import Mathlib

/-!
Shallow embedding of the anaconda plugin core (`anaconda.py`): the Worker
lifecycle (`restart`, `stop`, `start_worker`, port allocation), the worker
registry (`Worker.lookup` over the global `WORKERS` dictionary), project-name
derivation (`Worker.generate_project_name`), the backend command line, and
the `autocomplete` / `run_linter` request handling.

External collaborators (the Sublime Text view/window API, the settings
lookup, the request channel `Client`) are modelled as explicit structures
and function parameters; all control flow and data manipulation below is
translated from `anaconda.py` itself.
-/

namespace Anaconda

/-- Python's `s.rsplit(sep, 1)` on a list of characters: split at the LAST
occurrence of the separator, returning a two-element list, or return the
one-element list holding the whole input when the separator does not occur.
Mirrors the uses at lines 173 and 177 of `anaconda.py`. -/
def pyRsplit1List (sep : Char) : List Char → List (List Char)
  | [] => [[]]
  | c :: cs =>
    match pyRsplit1List sep cs with
    | [left, right] => [c :: left, right]
    | [one] => if c = sep then [[], one] else [c :: one]
    | other => other

/-- String version of `pyRsplit1List`: Python's `s.rsplit(sep, 1)`. -/
def pyRsplit1 (sep : Char) (s : String) : List String :=
  (pyRsplit1List sep s.toList).map String.mk

/-- Python's `s.split(sep)[0]`: everything before the first occurrence of
the separator (the whole string when the separator is absent).  Mirrors
the `.split('.')[0]` at line 177 of `anaconda.py`. -/
def pySplitHead (sep : Char) (s : String) : String :=
  String.mk (s.toList.takeWhile (fun c => c ≠ sep))

/-- Models the editor window API consumed by the plugin: the stable window
identity `window_id`, `window.project_file_name()` (absent when the window
has no project file) and `window.folders()`. -/
structure WindowModel where
  window_id : Nat
  project_file_name : Option String
  folders : List String

/-- `Worker.generate_project_name` (`anaconda.py` lines 159-179).  Python's
indexing `rsplit('/', 1)[1]` raises `IndexError` when the path holds no
slash; that fallibility is modelled by the `Option` result. -/
def Worker.generate_project_name (window : WindowModel) : Option String :=
  match window.project_file_name with
  | none =>
    if window.folders.length > 0 then
      (pyRsplit1 '/' (window.folders.headD "")).get? 1
    else
      some ("anaconda-" ++ toString window.window_id)
  | some pn => ((pyRsplit1 '/' pn).get? 1).map (pySplitHead '.')

/-- Models the editor view API consumed by the plugin: the buffer contents
(`view.substr(sublime.Region(0, view.size()))` returns all of `text`) and
`view.file_name()` (absent for an unsaved buffer). -/
structure ViewModel where
  text : String
  file_name : Option String

/-- The `Worker` object state (`anaconda.py` lines 78-106, 181-219).  The
source stores the instance attributes `view`, `client`, `proccess` (sic)
and, after `start_worker`, `port`; `stop` additionally writes a distinct
attribute `process` (line 106).  `client` records the port the `Client`
channel was bound to; `proccess`/`process` hold backend process ids. -/
structure Worker where
  view : ViewModel
  port : Option Nat
  client : Option Nat
  proccess : Option Nat
  process : Option Nat

/-- The operating-system facing state threaded through the lifecycle
operations: the ephemeral-port allocator, the process-id counter, the set
of live (spawned and not yet terminated) backend processes, and the log of
`terminate()` calls issued, in order, one entry per call. -/
structure World where
  nextPort : Nat
  nextPid : Nat
  live : List Nat
  terminateCalls : List Nat

/-- `Worker.port` the static method (`anaconda.py` lines 135-145): bind a
socket to port 0, read back the OS-chosen free port, close the socket.
The OS allocator is modelled as a counter handing out a fresh port on
every call. -/
def allocate_port (w : World) : Nat × World :=
  (w.nextPort, { w with nextPort := w.nextPort + 1 })

/-- `subprocess.Popen(sub_args, **kwargs)` (line 219): spawn a backend
process, which is live from this point until terminated. -/
def spawn (w : World) : Nat × World :=
  (w.nextPid, { w with nextPid := w.nextPid + 1, live := w.nextPid :: w.live })

/-- `proccess.terminate()`: remove the process from the live set and log
the terminate call. -/
def terminate (pid : Nat) (w : World) : World :=
  { w with live := w.live.erase pid, terminateCalls := w.terminateCalls ++ [pid] }

/-- `Worker.start_worker` (lines 181-219), lifecycle part: allocate a
fresh port, store it on `self.port`, and spawn the backend subprocess,
returning its handle.  (The command line it is spawned with is embedded
separately as `sub_args`; it does not affect the lifecycle state.) -/
def Worker.start_worker (self : Worker) (w : World) : Nat × Worker × World :=
  let pw := allocate_port w
  let self1 := { self with port := some pw.1 }
  let sp := spawn pw.2
  (sp.1, self1, sp.2)

/-- `Worker.restart` (lines 88-94): `self.proccess = self.start_worker(self)`
then `self.client = Client('localhost', self.port)`.  Note that the source
performs no teardown of a previous process or channel here. -/
def Worker.restart (self : Worker) (w : World) : Worker × World :=
  let r := Worker.start_worker self w
  let self1 := { r.2.1 with proccess := some r.1 }
  ({ self1 with client := self1.port }, r.2.2)

/-- `Worker.stop` (lines 96-106).  The second branch faithfully reproduces
line 106, which assigns `None` to the attribute `process` rather than
`proccess`. -/
def Worker.stop (self : Worker) (w : World) : Worker × World :=
  let self1 := if self.client.isSome then { self with client := none } else self
  match self1.proccess with
  | some pid => ({ self1 with process := none }, terminate pid w)
  | none => (self1, w)

/-- `Worker.__init__` (lines 82-86): fresh attributes, then `restart()`. -/
def Worker.new (view : ViewModel) (w : World) : Worker × World :=
  Worker.restart { view := view, port := none, client := none, proccess := none,
                   process := none } w

/-- The `autocomplete` request payload (the `data` dict at lines 114-119). -/
structure ACRequest where
  source : String
  line : Nat
  offset : Nat
  filename : String
deriving DecidableEq

/-- A backend response to `autocomplete`: a success flag and a completions
list. -/
structure ACResponse where
  success : Bool
  completions : List String
deriving DecidableEq

/-- The `run_linter` request payload (the `data` dict at line 130). -/
structure LintRequest where
  code : String
  settings : List (String × String)
  filename : String
deriving DecidableEq

/-- A backend response to `run_linter`: a success flag and an error list. -/
structure LintResponse where
  success : Bool
  errors : List String
deriving DecidableEq

/-- Models `view.rowcol(location)` of the editor API: the 0-based row is
the number of newline characters before the location, and the 0-based
column is the number of characters between the last newline before the
location and the location. -/
def sublime_rowcol (text : String) (location : Nat) : Nat × Nat :=
  (((text.toList.take location).filter (fun c => c = '\n')).length,
   ((text.toList.take location).reverse.takeWhile (fun c => c ≠ '\n')).length)

/-- Reference definition of cursor coordinates, independent of
`sublime_rowcol`: walk the text one character at a time, starting from
line 1 and column 0, bumping the line and resetting the column at each
newline. -/
def lineColGo : List Char → Nat → Nat → Nat → Nat × Nat
  | _, 0, l, k => (l, k)
  | [], _ + 1, l, k => (l, k)
  | c :: cs, n + 1, l, k =>
    if c = '\n' then lineColGo cs n (l + 1) 0 else lineColGo cs n l (k + 1)

/-- The 1-based line and 0-based column of a character offset. -/
def lineCol (text : String) (location : Nat) : Nat × Nat :=
  lineColGo text.toList location 1 0

/-- The `data` dict built by `Worker.autocomplete` (lines 113-119):
the full buffer text, `current_line + 1`, `current_column`, and
`self.view.file_name() or ''`. -/
def autocomplete_data (view : ViewModel) (location : Nat) : ACRequest :=
  let rc := sublime_rowcol view.text location
  { source := view.text
    line := rc.1 + 1
    offset := rc.2
    filename := view.file_name.getD "" }

/-- `Worker.autocomplete` (lines 108-123): build the request `data`, issue
it on the channel (`self.client.request('autocomplete', **data)`, passed
here as the function `channel`), and return the completions only when a
response arrived and its success flag `is True`; otherwise fall off the
end of the function (an absent result). -/
def Worker.autocomplete (self : Worker) (channel : ACRequest → Option ACResponse)
    (location : Nat) : Option (List String) :=
  match channel (autocomplete_data self.view location) with
  | some result => if result.success = true then some result.completions else none
  | none => none

/-- `Worker.run_linter` (lines 125-133): build the request `data`, issue
it on the channel, and return the errors only when a response arrived and
its success flag `is True`; otherwise an absent result. -/
def Worker.run_linter (channel : LintRequest → Option LintResponse)
    (text : String) (settings : List (String × String)) (filename : String) :
    Option (List String) :=
  match channel { code := text, settings := settings, filename := filename } with
  | some result => if result.success = true then some result.errors else none
  | none => none

/-- Python's `s.split(sep)` (unlimited, keeping empty pieces) on a list of
characters.  `''.split(',') == ['']`. -/
def pySplitList (sep : Char) : List Char → List (List Char)
  | [] => [[]]
  | c :: cs =>
    if c = sep then
      [] :: pySplitList sep cs
    else
      match pySplitList sep cs with
      | [] => [[c]]
      | g :: gs => (c :: g) :: gs

/-- String version of `pySplitList`: Python's `s.split(sep)`. -/
def pySplit (sep : Char) (s : String) : List String :=
  (pySplitList sep s.toList).map String.mk

/-- The backend command line built by `Worker.start_worker`
(lines 207-217): the base list, then a loop appending `['-e', extra_path]`
for every nonempty piece of `extra_paths.split(',')`, then the parent
process id.  The interpreter and `extra_paths` come from the settings
lookup and `WORKER_SCRIPT` from the install path (external collaborators),
so they are parameters here. -/
def sub_args (interp WORKER_SCRIPT project_name : String) (port : Nat)
    (extra_paths : String) (pid : Nat) : List String :=
  ((pySplit ',' extra_paths).foldl
    (fun acc extra_path => if extra_path ≠ "" then acc ++ ["-e", extra_path] else acc)
    [interp, "-B", WORKER_SCRIPT, "-p", project_name, toString port]) ++ [toString pid]

/-- The global `WORKERS` dictionary (line 32) keyed by `window_id`,
together with a counter modelling construction of new `Worker` objects;
`WORKERS` maps each window id to the token of the Worker stored for it. -/
structure Registry where
  WORKERS : List (Nat × Nat)
  nextWorker : Nat

/-- `Worker.lookup` (lines 147-157), sequential semantics: if the window
id is absent, construct a Worker and insert it (under the lock); then
return `WORKERS[window.window_id]`.  The final dictionary access is
modelled as an `Option` (a `KeyError` would be `none`). -/
def Worker.lookup (window_id : Nat) (reg : Registry) : Option Nat × Registry :=
  let reg1 :=
    if (reg.WORKERS.lookup window_id).isSome then reg
    else
      { WORKERS := (window_id, reg.nextWorker) :: reg.WORKERS
        nextWorker := reg.nextWorker + 1 }
  (reg1.WORKERS.lookup window_id, reg1)

/-- Interleaving model of two threads running `Worker.lookup` (lines
147-157) for the same window id.  Program counter values: 0 = evaluate
the unlocked membership test `window.window_id not in WORKERS` (line 153);
1 = acquire `WORKERS_LOCK` (line 154); 2 = construct a Worker and insert
it, `WORKERS[window.window_id] = Worker(view)` (line 155) — the source
performs no re-check of absence here; 3 = release the lock; 4 = read and
return `WORKERS[window.window_id]` (line 157); 5 = done. -/
structure LookupState where
  entry : Option Nat
  lockHeld : Option Bool
  nextWorker : Nat
  constructed : Nat
  pc0 : Nat
  pc1 : Nat
  ret0 : Option Nat
  ret1 : Option Nat
deriving DecidableEq

/-- One atomic step of thread `t` (`false` or `true`) of the lookup
interleaving model.  A thread waiting on the lock held by the other
thread does not advance. -/
def lookup_step (t : Bool) (σ : LookupState) : LookupState :=
  let pc := if t then σ.pc1 else σ.pc0
  let setPc : LookupState → Nat → LookupState := fun σ1 n =>
    if t then { σ1 with pc1 := n } else { σ1 with pc0 := n }
  match pc with
  | 0 => setPc σ (if σ.entry = none then 1 else 4)
  | 1 =>
    match σ.lockHeld with
    | none => setPc { σ with lockHeld := some t } 2
    | some _ => σ
  | 2 => setPc { σ with entry := some σ.nextWorker, nextWorker := σ.nextWorker + 1,
                        constructed := σ.constructed + 1 } 3
  | 3 => setPc { σ with lockHeld := none } 4
  | 4 => setPc (if t then { σ with ret1 := σ.entry } else { σ with ret0 := σ.entry }) 5
  | _ => σ

/-- Run a schedule (a list of thread choices) from a state. -/
def lookup_run (sched : List Bool) (σ : LookupState) : LookupState :=
  sched.foldl (fun σ1 t => lookup_step t σ1) σ

/-- Both threads about to run `Worker.lookup` on a window id with no
registry entry yet. -/
def lookup_start : LookupState :=
  { entry := none, lockHeld := none, nextWorker := 0, constructed := 0,
    pc0 := 0, pc1 := 0, ret0 := none, ret1 := none }

/-- A freshly constructed Worker (`Worker(view)` on an empty world),
followed by `stop()` twice. -/
def stopTwiceScenario : Worker × World :=
  let sw := Worker.new ⟨"", none⟩ ⟨0, 0, [], []⟩
  let sw1 := Worker.stop sw.1 sw.2
  Worker.stop sw1.1 sw1.2

/-- A freshly constructed Worker (holding a live backend process),
followed by `restart()`. -/
def restartLiveScenario : Worker × World :=
  let sw := Worker.new ⟨"", none⟩ ⟨0, 0, [], []⟩
  Worker.restart sw.1 sw.2

/-- A freshly constructed Worker, used as the concrete input of the
stop-then-restart witness. -/
def freshPortScenario : Worker × World :=
  Worker.new ⟨"", none⟩ ⟨0, 0, [], []⟩

theorem pyRsplit1List_no_sep (sep : Char) :
    ∀ (b : List Char), (∀ c ∈ b, c ≠ sep) → pyRsplit1List sep b = [b]
  | [], _ => rfl
  | c :: cs, h => by
    have ih := pyRsplit1List_no_sep sep cs (fun x hx => h x (List.mem_cons_of_mem c hx))
    have hc : ¬ c = sep := h c (List.mem_cons_self c cs)
    simp [pyRsplit1List, ih, hc]

theorem pyRsplit1List_last (sep : Char) :
    ∀ (d b : List Char), (∀ c ∈ b, c ≠ sep) →
      pyRsplit1List sep (d ++ sep :: b) = [d, b]
  | [], b, h => by
    simp [pyRsplit1List, pyRsplit1List_no_sep sep b h]
  | c :: d, b, h => by
    have ih := pyRsplit1List_last sep d b h
    simp [pyRsplit1List, ih]

theorem takeWhile_append_sat {α : Type} (p : α → Bool) :
    ∀ (l1 : List α) (a : α) (l2 : List α),
      (∀ x ∈ l1, p x = true) → p a = false →
      (l1 ++ a :: l2).takeWhile p = l1
  | [], a, l2, _, ha => by simp [List.takeWhile_cons, ha]
  | x :: xs, a, l2, h, ha => by
    have hx := h x (List.mem_cons_self x xs)
    have ih := takeWhile_append_sat p xs a l2 (fun y hy => h y (List.mem_cons_of_mem x hy)) ha
    simp [List.takeWhile_cons, hx, ih]

theorem string_toList_append (s t : String) : (s ++ t).toList = s.toList ++ t.toList := by
  cases s; cases t; rfl

theorem string_mk_toList (s : String) : String.mk s.toList = s := rfl

/-- C5: project-name derivation.  With a project file whose path is
`dir ++ "/" ++ stem ++ "." ++ ext` (the basename slash-free, the stem
dot-free) the result is the basename with directory and extension
stripped; with no project file but a first workspace folder
`dir ++ "/" ++ base` (base slash-free) the result is that folder's base
name; with neither, the result is a name containing the window's
identity. -/
theorem generate_project_name_spec (window : WindowModel) :
    (∀ dir stem ext : String,
      window.project_file_name = some (dir ++ "/" ++ stem ++ "." ++ ext) →
      (∀ c ∈ stem.toList, c ≠ '/') → (∀ c ∈ ext.toList, c ≠ '/') →
      (∀ c ∈ stem.toList, c ≠ '.') →
      Worker.generate_project_name window = some stem) ∧
    (∀ dir base : String, ∀ rest : List String,
      window.project_file_name = none →
      window.folders = (dir ++ "/" ++ base) :: rest →
      (∀ c ∈ base.toList, c ≠ '/') →
      Worker.generate_project_name window = some base) ∧
    (window.project_file_name = none → window.folders = [] →
      ∃ s : String, Worker.generate_project_name window = some s ∧
        ∃ t : String, s = t ++ toString window.window_id) := by
  obtain ⟨wid, pf, fs⟩ := window
  refine ⟨?_, ?_, ?_⟩
  · intro dir stem ext h hs he hd
    simp only at h
    subst h
    show ((pyRsplit1 '/' (dir ++ "/" ++ stem ++ "." ++ ext)).get? 1).map (pySplitHead '.')
        = some stem
    have hlist : (dir ++ "/" ++ stem ++ "." ++ ext).toList
        = dir.toList ++ '/' :: (stem.toList ++ '.' :: ext.toList) := by
      simp only [string_toList_append]
      show dir.toList ++ ['/'] ++ stem.toList ++ ['.'] ++ ext.toList = _
      simp
    have hb : ∀ c ∈ stem.toList ++ '.' :: ext.toList, c ≠ '/' := by
      intro c hc
      rcases List.mem_append.mp hc with h1 | h2
      · exact hs c h1
      · rcases List.mem_cons.mp h2 with rfl | h3
        · decide
        · exact he c h3
    have hsplit := pyRsplit1List_last '/' dir.toList (stem.toList ++ '.' :: ext.toList) hb
    unfold pyRsplit1
    rw [hlist, hsplit]
    simp only [List.map_cons, List.map_nil, List.get?, Option.map_some]
    have htake : (stem.toList ++ '.' :: ext.toList).takeWhile (fun c => decide (c ≠ '.'))
        = stem.toList := by
      apply takeWhile_append_sat
      · intro x hx
        exact decide_eq_true (hd x hx)
      · decide
    show some (String.mk ((stem.toList ++ '.' :: ext.toList).takeWhile
        (fun c => decide (c ≠ '.')))) = some stem
    rw [htake, string_mk_toList]
  · intro dir base rest h hf hb
    simp only at h hf
    subst h
    subst hf
    show (if ((dir ++ "/" ++ base) :: rest).length > 0 then
        (pyRsplit1 '/' (((dir ++ "/" ++ base) :: rest).headD "")).get? 1
      else some ("anaconda-" ++ toString wid)) = some base
    rw [if_pos (by simp)]
    have hlist : (dir ++ "/" ++ base).toList = dir.toList ++ '/' :: base.toList := by
      simp only [string_toList_append]
      show dir.toList ++ ['/'] ++ base.toList = _
      simp
    have hsplit := pyRsplit1List_last '/' dir.toList base.toList hb
    show (pyRsplit1 '/' (dir ++ "/" ++ base)).get? 1 = some base
    unfold pyRsplit1
    rw [hlist, hsplit]
    simp only [List.map_cons, List.map_nil, List.get?]
    rw [string_mk_toList]
  · intro h hf
    simp only at h hf
    subst h
    subst hf
    exact ⟨"anaconda-" ++ toString wid, rfl, "anaconda-", rfl⟩

/-- Witness for C5 at the spec's example windows. -/
theorem generate_project_name_spec_w :
    Worker.generate_project_name ⟨42, some "/home/u/proj.sublime-project", []⟩ = some "proj" ∧
    Worker.generate_project_name ⟨42, none, ["/home/u/myrepo"]⟩ = some "myrepo" ∧
    ∃ s : String, Worker.generate_project_name ⟨42, none, []⟩ = some s ∧
      ∃ t : String, s = t ++ toString (42 : Nat) := by
  refine ⟨?_, ?_, ?_⟩
  · exact (generate_project_name_spec ⟨42, some "/home/u/proj.sublime-project", []⟩).1
      "/home/u" "proj" "sublime-project" (by decide) (by decide) (by decide) (by decide)
  · exact (generate_project_name_spec ⟨42, none, ["/home/u/myrepo"]⟩).2.1
      "/home/u" "myrepo" [] rfl (by decide) (by decide)
  · exact (generate_project_name_spec ⟨42, none, []⟩).2.2 rfl rfl

/-- C2 (code evidence): `stop()` is not idempotent.  After one `stop()`
the attribute `proccess` is still set (line 106 cleared `process`
instead), so a second `stop()` issues a second `terminate()` call on the
same backend process: the terminate log reads `[0, 0]`, not `[0]`. -/
theorem stop_stop_terminates_twice :
    stopTwiceScenario.2.terminateCalls = [0, 0] ∧
    stopTwiceScenario.1.proccess = some 0 ∧
    stopTwiceScenario.1.process = none := by
  decide

/-- C3 (code evidence): `restart()` on a Worker holding a live backend
process spawns a second process without terminating the first: both
process 0 and process 1 are live afterwards and no `terminate()` call was
ever issued. -/
theorem restart_spawns_without_teardown :
    restartLiveScenario.2.live = [1, 0] ∧
    restartLiveScenario.1.proccess = some 1 ∧
    restartLiveScenario.2.terminateCalls = [] := by
  decide

theorem stop_preserves_counters (self : Worker) (w : World) :
    (Worker.stop self w).2.nextPort = w.nextPort ∧
    (Worker.stop self w).2.nextPid = w.nextPid := by
  unfold Worker.stop
  cases hc : self.client.isSome <;> cases hp : self.proccess <;>
    simp [hc, hp, terminate]

/-- C6: after `stop()`, a `restart()` binds the Worker to the port handed
out by a fresh call to the port allocator (one new allocation happens, and
the resulting port differs from the old one, which was allocated
earlier), and the Worker holds a newly spawned live backend process. -/
theorem stop_restart_fresh_port (self : Worker) (w : World) (p0 : Nat)
    (hp : self.port = some p0) (hlt : p0 < w.nextPort) :
    (Worker.restart (Worker.stop self w).1 (Worker.stop self w).2).1.port
      = some w.nextPort ∧
    (Worker.restart (Worker.stop self w).1 (Worker.stop self w).2).1.port ≠ self.port ∧
    (Worker.restart (Worker.stop self w).1 (Worker.stop self w).2).2.nextPort
      = w.nextPort + 1 ∧
    (Worker.restart (Worker.stop self w).1 (Worker.stop self w).2).1.proccess
      = some w.nextPid ∧
    w.nextPid ∈ (Worker.restart (Worker.stop self w).1 (Worker.stop self w).2).2.live := by
  obtain ⟨hport, hpid⟩ := stop_preserves_counters self w
  refine ⟨?_, ?_, ?_, ?_, ?_⟩
  · simp [Worker.restart, Worker.start_worker, allocate_port, spawn, hport]
  · simp only [Worker.restart, Worker.start_worker, allocate_port, spawn, hport, hp]
    intro h
    have := Option.some.inj h
    omega
  · simp [Worker.restart, Worker.start_worker, allocate_port, spawn, hport]
  · simp [Worker.restart, Worker.start_worker, allocate_port, spawn, hpid]
  · simp [Worker.restart, Worker.start_worker, allocate_port, spawn, hpid]

/-- Witness for C6 on a freshly constructed Worker (old port 0, allocator
counter at 1). -/
theorem stop_restart_fresh_port_w :
    (Worker.restart (Worker.stop freshPortScenario.1 freshPortScenario.2).1
        (Worker.stop freshPortScenario.1 freshPortScenario.2).2).1.port = some 1 ∧
    (Worker.restart (Worker.stop freshPortScenario.1 freshPortScenario.2).1
        (Worker.stop freshPortScenario.1 freshPortScenario.2).2).1.port
      ≠ freshPortScenario.1.port ∧
    (Worker.restart (Worker.stop freshPortScenario.1 freshPortScenario.2).1
        (Worker.stop freshPortScenario.1 freshPortScenario.2).2).2.nextPort = 2 ∧
    (Worker.restart (Worker.stop freshPortScenario.1 freshPortScenario.2).1
        (Worker.stop freshPortScenario.1 freshPortScenario.2).2).1.proccess = some 1 ∧
    (1 : Nat) ∈ (Worker.restart (Worker.stop freshPortScenario.1 freshPortScenario.2).1
        (Worker.stop freshPortScenario.1 freshPortScenario.2).2).2.live :=
  stop_restart_fresh_port freshPortScenario.1 freshPortScenario.2 0 rfl (by decide)

/-- C1 (code evidence): an interleaving of two concurrent `lookup()` calls
for the same window under which TWO Workers are constructed.  Both
threads pass the unlocked membership test before either inserts; the
locked region inserts without re-checking absence, so each thread
constructs a Worker (the second insertion overwrites the first, and both
threads return the second Worker). -/
theorem lookup_race_constructs_two_workers :
    (lookup_run [false, true, false, false, false, true, true, true, false, true]
        lookup_start).constructed = 2 ∧
    (lookup_run [false, true, false, false, false, true, true, true, false, true]
        lookup_start).pc0 = 5 ∧
    (lookup_run [false, true, false, false, false, true, true, true, false, true]
        lookup_start).pc1 = 5 ∧
    (lookup_run [false, true, false, false, false, true, true, true, false, true]
        lookup_start).ret0 = some 1 ∧
    (lookup_run [false, true, false, false, false, true, true, true, false, true]
        lookup_start).ret1 = some 1 := by
  decide

/-- C10: `Worker.lookup` never yields an absent result: after the call
the registry holds an entry for the window id, and the value returned is
exactly the registry's entry for that id at return time. -/
theorem lookup_returns_registry_entry (window_id : Nat) (reg : Registry) :
    ((Worker.lookup window_id reg).2.WORKERS.lookup window_id).isSome ∧
    (Worker.lookup window_id reg).1
      = (Worker.lookup window_id reg).2.WORKERS.lookup window_id ∧
    (Worker.lookup window_id reg).1.isSome := by
  unfold Worker.lookup
  by_cases h : (reg.WORKERS.lookup window_id).isSome
  · simp [h]
  · simp [h, List.lookup]

theorem sub_args_loop (l : List String) (acc : List String) :
    l.foldl (fun acc2 extra_path => if extra_path ≠ "" then acc2 ++ ["-e", extra_path] else acc2)
        acc
      = acc ++ (l.filter (fun e => e ≠ "")).flatMap (fun e => ["-e", e]) := by
  induction l generalizing acc with
  | nil => simp
  | cons x xs ih =>
    simp only [List.foldl_cons, List.filter_cons]
    by_cases hx : x = ""
    · rw [if_neg (fun hne => hne hx), ih]
      have hcond : decide (x ≠ "") = false := by simp [hx]
      rw [hcond]
      simp
    · rw [if_pos hx, ih]
      have hcond : decide (x ≠ "") = true := by simp [hx]
      rw [hcond]
      simp [List.append_assoc]

/-- C7: the backend command line is always
`[interp, "-B", script, "-p", project_name, port]`, then one `["-e", e]`
pair per nonempty comma-separated piece of `extra_paths`, in order, and
finally the parent process id. -/
theorem sub_args_shape (interp WORKER_SCRIPT project_name : String) (port : Nat)
    (extra_paths : String) (pid : Nat) :
    sub_args interp WORKER_SCRIPT project_name port extra_paths pid =
      [interp, "-B", WORKER_SCRIPT, "-p", project_name, toString port] ++
      ((pySplit ',' extra_paths).filter (fun e => e ≠ "")).flatMap (fun e => ["-e", e]) ++
      [toString pid] := by
  unfold sub_args
  rw [sub_args_loop, List.append_assoc]

/-- C4: when the backend's response is absent, or carries a success flag
other than `True`, `autocomplete` and `run_linter` both produce an absent
result instead of an error. -/
theorem failed_response_yields_absent (self : Worker)
    (channelA : ACRequest → Option ACResponse) (channelL : LintRequest → Option LintResponse)
    (location : Nat) (text : String) (settings : List (String × String)) (filename : String)
    (hA : ∀ r, channelA (autocomplete_data self.view location) = some r → r.success ≠ true)
    (hL : ∀ r, channelL { code := text, settings := settings, filename := filename } = some r →
      r.success ≠ true) :
    Worker.autocomplete self channelA location = none ∧
    Worker.run_linter channelL text settings filename = none := by
  constructor
  · unfold Worker.autocomplete
    cases h : channelA (autocomplete_data self.view location) with
    | none => rfl
    | some r => simp [hA r h]
  · unfold Worker.run_linter
    cases h : channelL { code := text, settings := settings, filename := filename } with
    | none => rfl
    | some r => simp [hL r h]

/-- Witness for C4: a backend answering `run_linter` and `autocomplete`
with a response whose success flag is false. -/
theorem failed_response_yields_absent_w :
    Worker.autocomplete ⟨⟨"x=1", none⟩, none, none, none, none⟩
      (fun _ => some ⟨false, []⟩) 0 = none ∧
    Worker.run_linter (fun _ => some ⟨false, []⟩) "x=1" [] "a.py" = none :=
  failed_response_yields_absent ⟨⟨"x=1", none⟩, none, none, none, none⟩
    (fun _ => some ⟨false, []⟩) (fun _ => some ⟨false, []⟩) 0 "x=1" [] "a.py"
    (fun r h => by cases h; decide) (fun r h => by cases h; decide)

/-- C8: when the backend's response to `autocomplete` has its success
flag `True`, the operation returns exactly the response's completions
list. -/
theorem success_response_yields_completions (self : Worker)
    (channel : ACRequest → Option ACResponse) (location : Nat) (comps : List String)
    (h : channel (autocomplete_data self.view location)
      = some { success := true, completions := comps }) :
    Worker.autocomplete self channel location = some comps := by
  unfold Worker.autocomplete
  simp [h]

/-- Witness for C8 at the spec's example: a backend deterministically
returning success with completions `["path", "getcwd"]`. -/
theorem success_response_yields_completions_w :
    Worker.autocomplete ⟨⟨"import os\nos.", none⟩, none, none, none, none⟩
      (fun _ => some ⟨true, ["path", "getcwd"]⟩) 13 = some ["path", "getcwd"] :=
  success_response_yields_completions ⟨⟨"import os\nos.", none⟩, none, none, none, none⟩
    (fun _ => some ⟨true, ["path", "getcwd"]⟩) 13 ["path", "getcwd"] rfl

theorem takeWhile_append_ex {α : Type} (p : α → Bool) :
    ∀ (l1 l2 : List α), (∃ x ∈ l1, p x = false) →
      (l1 ++ l2).takeWhile p = l1.takeWhile p
  | [], _, h => by simp at h
  | x :: xs, l2, h => by
    by_cases hx : p x = true
    · have hxs : ∃ y ∈ xs, p y = false := by
        rcases h with ⟨y, hy, hpy⟩
        rcases List.mem_cons.mp hy with rfl | hmem
        · rw [hx] at hpy
          cases hpy
        · exact ⟨y, hmem, hpy⟩
      simp [List.takeWhile_cons, hx, takeWhile_append_ex p xs l2 hxs]
    · have hx' : p x = false := by
        revert hx
        cases p x <;> simp
      simp [List.takeWhile_cons, hx']

theorem takeWhile_all {α : Type} (p : α → Bool) :
    ∀ (l : List α), (∀ x ∈ l, p x = true) → l.takeWhile p = l
  | [], _ => rfl
  | x :: xs, h => by
    have hx := h x (List.mem_cons_self x xs)
    simp [List.takeWhile_cons, hx,
      takeWhile_all p xs (fun y hy => h y (List.mem_cons_of_mem x hy))]

theorem lineColGo_fst (cs : List Char) : ∀ (n l k : Nat),
    (lineColGo cs n l k).1 = l + ((cs.take n).filter (fun c => c = '\n')).length := by
  induction cs with
  | nil =>
    intro n l k
    cases n <;> simp [lineColGo]
  | cons c cs ih =>
    intro n l k
    cases n with
    | zero => simp [lineColGo]
    | succ n =>
      show (if c = '\n' then lineColGo cs n (l + 1) 0 else lineColGo cs n l (k + 1)).1 = _
      rw [List.take_succ_cons, List.filter_cons]
      by_cases hc : c = '\n'
      · subst hc
        rw [if_pos rfl, ih, if_pos (by simp), List.length_cons]
        omega
      · rw [if_neg hc, ih, if_neg (by simp [hc])]

theorem lineColGo_snd (cs : List Char) : ∀ (n l k : Nat),
    (lineColGo cs n l k).2 =
      if '\n' ∈ cs.take n then ((cs.take n).reverse.takeWhile (fun c => c ≠ '\n')).length
      else k + (cs.take n).length := by
  induction cs with
  | nil =>
    intro n l k
    cases n <;> simp [lineColGo]
  | cons c cs ih =>
    intro n l k
    cases n with
    | zero => simp [lineColGo]
    | succ n =>
      show (if c = '\n' then lineColGo cs n (l + 1) 0 else lineColGo cs n l (k + 1)).2 = _
      rw [List.take_succ_cons, List.reverse_cons]
      by_cases hc : c = '\n'
      · subst hc
        rw [if_pos rfl, ih, if_pos (List.mem_cons_self '\n' (cs.take n))]
        by_cases hm : '\n' ∈ cs.take n
        · rw [if_pos hm,
            takeWhile_append_ex (fun c => decide (c ≠ '\n')) ((cs.take n).reverse) ['\n']
              ⟨'\n', List.mem_reverse.mpr hm, by simp⟩]
        · rw [if_neg hm,
            takeWhile_append_sat (fun c => decide (c ≠ '\n')) ((cs.take n).reverse) '\n' []
              (fun x hx => by
                simp only [decide_eq_true_eq]
                intro hx'
                exact hm (List.mem_reverse.mp (hx' ▸ hx)))
              (by simp)]
          rw [List.length_reverse]
          omega
      · rw [if_neg hc, ih]
        by_cases hm : '\n' ∈ cs.take n
        · rw [if_pos hm, if_pos (List.mem_cons_of_mem c hm),
            takeWhile_append_ex (fun c => decide (c ≠ '\n')) ((cs.take n).reverse) [c]
              ⟨'\n', List.mem_reverse.mpr hm, by simp⟩]
        · rw [if_neg hm, if_neg (fun hmem => by
            rcases List.mem_cons.mp hmem with heq | hmem2
            · exact hc heq.symm
            · exact hm hmem2)]
          rw [List.length_cons]
          omega

theorem lineCol_eq_rowcol (text : String) (location : Nat) :
    lineCol text location
      = ((sublime_rowcol text location).1 + 1, (sublime_rowcol text location).2) := by
  unfold lineCol sublime_rowcol
  refine Prod.ext ?_ ?_
  · rw [lineColGo_fst]
    show 1 + ((text.toList.take location).filter (fun c => c = '\n')).length
        = ((text.toList.take location).filter (fun c => c = '\n')).length + 1
    omega
  · rw [lineColGo_snd]
    show (if '\n' ∈ text.toList.take location then
          ((text.toList.take location).reverse.takeWhile (fun c => c ≠ '\n')).length
        else 0 + (text.toList.take location).length)
      = ((text.toList.take location).reverse.takeWhile (fun c => c ≠ '\n')).length
    by_cases hm : '\n' ∈ text.toList.take location
    · rw [if_pos hm]
    · rw [if_neg hm,
        takeWhile_all (fun c => decide (c ≠ '\n')) ((text.toList.take location).reverse)
          (fun x hx => by
            simp only [decide_eq_true_eq]
            intro hx'
            exact hm (List.mem_reverse.mp (hx' ▸ hx)))]
      rw [List.length_reverse]
      omega

/-- C9: the `autocomplete` request carries the document's full source
text, the 1-based line and 0-based column of the location, and the view's
file name (the empty string when the view has none). -/
theorem autocomplete_request_fields (view : ViewModel) (location : Nat) :
    (autocomplete_data view location).source = view.text ∧
    (autocomplete_data view location).line = (lineCol view.text location).1 ∧
    (autocomplete_data view location).offset = (lineCol view.text location).2 ∧
    (autocomplete_data view location).filename = view.file_name.getD "" ∧
    (view.file_name = none → (autocomplete_data view location).filename = "") := by
  refine ⟨rfl, ?_, ?_, rfl, ?_⟩
  · rw [lineCol_eq_rowcol]
    exact rfl
  · rw [lineCol_eq_rowcol]
    exact rfl
  · intro h
    simp [autocomplete_data, h]

/-- Witness for C9 at the spec's example: in `"import os\nos."` the offset
13 sits on line 2 (1-based) at column 3 (0-based), and an unsaved view
reports the empty filename. -/
theorem autocomplete_request_fields_w :
    (autocomplete_data ⟨"import os\nos.", none⟩ 13).source = "import os\nos." ∧
    (autocomplete_data ⟨"import os\nos.", none⟩ 13).line = 2 ∧
    (autocomplete_data ⟨"import os\nos.", none⟩ 13).offset = 3 ∧
    (autocomplete_data ⟨"import os\nos.", none⟩ 13).filename = "" := by
  have h := autocomplete_request_fields ⟨"import os\nos.", none⟩ 13
  refine ⟨h.1, ?_, ?_, h.2.2.2.2 rfl⟩
  · rw [h.2.1]
    decide
  · rw [h.2.2.1]
    decide

end Anaconda
